import Mathlib

/-!
Verification development for the NativeNuance repository: a shallow
embedding of the client-side state logic of src/App.tsx, the flashcard
cursors of src/components/AnalysisView.tsx, and the remote-store facade of
src/services/dataService.ts, together with theorems settling the spec
claims about them.

Conventions of the embedding:
  - TypeScript `string | null` and optional fields become `Option String`;
    JavaScript truthiness on such a value (used by the save-matching logic)
    is `strTruthy`: `none` and `some ""` are both falsy.
  - React `useState` cells become fields of explicit state structures;
    a handler becomes a function from state to state, paired (where the
    claims need it) with the list of vocabulary items it sent to the
    generation service (`none` when no request was issued).
  - The asynchronous generation service is a parameter
    `gen : List VocabularyItem → Option GeneratedPractice`; `none` models a
    rejected promise (the catch branch of the handler).
  - The remote store (Supabase) is a list of (user id, row) pairs; each
    dataService call is a pure function on it.  An awaited network call
    that can reject is an `Except` value.
-/

namespace NativeNuance

/-! ## Data model (src/types.ts) -/

/-- SourceType enum from types.ts. -/
inductive SourceType
  | news
  | tvTranscript
  | book
  | email
deriving DecidableEq, Repr, Inhabited

/-- AppMode enum from types.ts. -/
inductive AppMode
  | analyzeText
  | topicStrategy
  | history
deriving DecidableEq, Repr, Inhabited

/-- VocabularyCategory union from types.ts. -/
inductive VocabularyCategory
  | idiomsFixed
  | phrasalVerbs
  | nuanceSarcasm
  | chunksStructures
  | topicSpecific
deriving DecidableEq, Repr, Inhabited

/-- DetailedExample from types.ts. -/
structure DetailedExample where
  context_label : String
  sentence : String
  explanation : Option String := none
deriving DecidableEq, Repr, Inhabited

/-- VocabularyItem from types.ts. -/
structure VocabularyItem where
  term : String
  definition : String
  category : VocabularyCategory
  source_context : Option String := none
  imagery_etymology : Option String := none
  examples : List DetailedExample := []
  nuance : Option String := none
  example_usage : Option String := none
deriving DecidableEq, Repr, Inhabited

/-- StructurePoint from types.ts. -/
structure StructurePoint where
  section_name : String
  purpose : String
  native_pattern : String
deriving DecidableEq, Repr, Inhabited

/-- AnalysisResult from types.ts; the `vocabulary` field is required. -/
structure AnalysisResult where
  summary : String
  tone : String
  structure_analysis : Option (List StructurePoint) := none
  vocabulary : List VocabularyItem
deriving DecidableEq, Repr, Inhabited

/-- One sentence of a GeneratedPractice payload from types.ts. -/
structure PracticeSentence where
  original_concept : String
  native_version : String
  explanation : String
deriving DecidableEq, Repr, Inhabited

/-- GeneratedPractice from types.ts. -/
structure GeneratedPractice where
  scenario : String
  sentences : List PracticeSentence
deriving DecidableEq, Repr, Inhabited

/-- Note from types.ts. -/
structure Note where
  id : String
  word : String
  definition : String
  context : String
  timestamp : Nat
deriving DecidableEq, Repr, Inhabited

/-- SavedAnalysis from types.ts.  `fileName` and `folderId` are
`string | null` and optional; `notes` defaults to the empty list. -/
structure SavedAnalysis where
  id : String
  date : Nat
  sourceType : SourceType
  inputText : String
  analysisResult : AnalysisResult
  fileName : Option String := none
  notes : List Note := []
  folderId : Option String := none
deriving DecidableEq, Repr, Inhabited

/-- AnalysisFolder from types.ts. -/
structure AnalysisFolder where
  id : String
  name : String
  createdAt : Nat
  color : Option String := none
deriving DecidableEq, Repr, Inhabited

/-- The four-valued status cell of AppContent in src/App.tsx. -/
inductive Status
  | idle
  | analyzing
  | practicing
  | complete
deriving DecidableEq, Repr, Inhabited

/-- JavaScript truthiness of a `string | null` value: null, undefined and
the empty string are falsy; every other string is truthy. -/
def strTruthy : Option String → Bool
  | none => false
  | some s => !s.isEmpty

/-- BATCH_SIZE constant of src/App.tsx. -/
def BATCH_SIZE : Nat := 5

/-! ## AppContent session state (src/App.tsx) -/

/-- The useState cells of AppContent in src/App.tsx that the core logic
reads and writes, with their line-32..58 initial values captured by
`initialAppState`. -/
structure AppState where
  mode : AppMode
  inputText : String
  sourceType : SourceType
  fileName : Option String
  topicInput : String
  status : Status
  analysisResult : Option AnalysisResult
  practiceResult : Option GeneratedPractice
  error : Option String
  practiceQueue : List VocabularyItem
  practiceIndex : Nat
  isGeneratingNext : Bool
  savedAnalyses : List SavedAnalysis
  analysisFolders : List AnalysisFolder
  currentAnalysisId : Option String
deriving DecidableEq, Repr, Inhabited

/-- Initial values of the AppContent useState cells (src/App.tsx lines
29..58). -/
def initialAppState : AppState where
  mode := .analyzeText
  inputText := ""
  sourceType := .news
  fileName := none
  topicInput := ""
  status := .idle
  analysisResult := none
  practiceResult := none
  error := none
  practiceQueue := []
  practiceIndex := 0
  isGeneratingNext := false
  savedAnalyses := []
  analysisFolders := []
  currentAnalysisId := none

/-- handleNewAnalysis (src/App.tsx lines 294..301): resets exactly the six
fields it names and touches nothing else. -/
def handleNewAnalysis (s : AppState) : AppState :=
  { s with
      analysisResult := none
      inputText := ""
      fileName := none
      currentAnalysisId := none
      mode := .analyzeText
      status := .idle }

/-! ## saveAnalysis (src/App.tsx lines 143..203) -/

/-- The inputs saveAnalysis reads from the surrounding component state,
plus the id `crypto.randomUUID()` would generate and the timestamp
`Date.now()` would return for this call. -/
structure SaveContext where
  analysisResult : Option AnalysisResult
  fileName : Option String
  inputText : String
  sourceType : SourceType
  notes : List Note := []
  freshId : String
  now : Nat
deriving Repr, Inhabited

/-- The matching predicate of the `savedAnalyses.find` call in saveAnalysis
(src/App.tsx lines 149..158).  `fileName && a.fileName` and
`!fileName && !a.fileName` are JavaScript truthiness tests, so an empty
string behaves like null here. -/
def matchesSource (fileName : Option String) (inputText : String)
    (a : SavedAnalysis) : Bool :=
  if strTruthy fileName && strTruthy a.fileName then
    a.fileName == fileName
  else if !strTruthy fileName && !strTruthy a.fileName then
    a.inputText == inputText
  else
    false

/-- The updated record built in the existing-analysis branch of
saveAnalysis (src/App.tsx lines 162..170): spread of the existing entry,
overriding date, sourceType, inputText, analysisResult, fileName, and
notes (the old notes are kept when the provided list is empty). -/
def updatedAnalysis (c : SaveContext) (r : AnalysisResult)
    (existing : SavedAnalysis) : SavedAnalysis :=
  { existing with
      date := c.now
      sourceType := c.sourceType
      inputText := c.inputText
      analysisResult := r
      fileName := c.fileName
      notes := if c.notes.length > 0 then c.notes else existing.notes }

/-- The fresh record built in the new-analysis branch of saveAnalysis
(src/App.tsx lines 184..192); folderId is not set, i.e. undefined. -/
def newAnalysis (c : SaveContext) (r : AnalysisResult) : SavedAnalysis :=
  { id := c.freshId
    date := c.now
    sourceType := c.sourceType
    inputText := c.inputText
    analysisResult := r
    fileName := c.fileName
    notes := c.notes
    folderId := none }

/-- saveAnalysis (src/App.tsx lines 143..203), restricted to its effect on
the savedAnalyses collection (the localStorage write mirrors the returned
list and the cloud write does not touch it). -/
def saveAnalysis (c : SaveContext) (saved : List SavedAnalysis) :
    List SavedAnalysis :=
  match c.analysisResult with
  | none => saved
  | some r =>
    match saved.find? (matchesSource c.fileName c.inputText) with
    | some existing =>
        saved.map fun a =>
          if a.id == existing.id then updatedAnalysis c r existing else a
    | none => newAnalysis c r :: saved

/-- The id projection of a saved-analyses collection. -/
def analysisIds (l : List SavedAnalysis) : List String :=
  l.map fun a => a.id

/-- A sequence of saveAnalysis calls, applied left to right. -/
def saveAll : List SaveContext → List SavedAnalysis → List SavedAnalysis
  | [], saved => saved
  | c :: cs, saved => saveAll cs (saveAnalysis c saved)

/-- Freshness of the generated ids along a sequence of saves: each freshId
is absent from the collection at the moment its save runs. -/
def freshIdsOk : List SaveContext → List SavedAnalysis → Bool
  | [], _ => true
  | c :: cs, saved =>
      !(analysisIds saved).contains c.freshId
        && freshIdsOk cs (saveAnalysis c saved)

/-! ## deleteFolder (src/App.tsx lines 259..280) -/

/-- deleteFolder, restricted to its effect on the two local collections
(the remote calls replay the same updates row by row): the folder list is
filtered by id, and every analysis whose folderId strictly equals the
deleted id is reparented to null. -/
def deleteFolderLocal (folderId : String) (folders : List AnalysisFolder)
    (analyses : List SavedAnalysis) :
    List AnalysisFolder × List SavedAnalysis :=
  ((folders.filter fun f => f.id != folderId),
   (analyses.map fun a =>
      if a.folderId == some folderId then { a with folderId := none } else a))

/-! ## Practice queue handlers (src/App.tsx lines 410..472) -/

/-- The try/catch/finally tail of handleGeneratePractice (src/App.tsx
lines 434..441): issue the generation request for `items`; on success
store the payload, on failure set the error message; either way end in
status complete.  The second component records the items sent to the
generation service. -/
def runPracticeRequest (gen : List VocabularyItem → Option GeneratedPractice)
    (items : List VocabularyItem) (s : AppState) :
    AppState × Option (List VocabularyItem) :=
  match gen items with
  | some p => ({ s with practiceResult := some p, status := .complete }, some items)
  | none =>
      ({ s with
          error := some "Failed to generate practice. Please try again."
          status := .complete }, some items)

/-- handleGeneratePractice (src/App.tsx lines 411..442).  Note that the
case-2 guard is the truthiness of `analysisResult?.vocabulary`; since the
vocabulary field of AnalysisResult is required and an array is always
truthy in JavaScript, the guard holds exactly when analysisResult is
non-null. -/
def handleGeneratePractice (gen : List VocabularyItem → Option GeneratedPractice)
    (selectedVocab : List VocabularyItem) (s : AppState) :
    AppState × Option (List VocabularyItem) :=
  let s1 := { s with status := Status.practicing, error := none }
  if selectedVocab.length > 0 then
    runPracticeRequest gen selectedVocab
      { s1 with practiceQueue := [], practiceIndex := 0 }
  else
    match s1.analysisResult with
    | some r =>
        runPracticeRequest gen (r.vocabulary.take BATCH_SIZE)
          { s1 with practiceQueue := r.vocabulary, practiceIndex := BATCH_SIZE }
    | none => ({ s1 with status := Status.idle }, none)

/-- handleNextPracticeBatch (src/App.tsx lines 445..460).  The early
return fires when practiceIndex is at or past the queue length; otherwise
the slice [practiceIndex, practiceIndex + BATCH_SIZE) is requested and the
cursor advances by BATCH_SIZE only on success (the catch branch only
logs).  The second component records the items sent to the generation
service. -/
def handleNextPracticeBatch (gen : List VocabularyItem → Option GeneratedPractice)
    (s : AppState) : AppState × Option (List VocabularyItem) :=
  if s.practiceIndex ≥ s.practiceQueue.length then (s, none)
  else
    let s1 := { s with isGeneratingNext := true }
    let nextItems := (s1.practiceQueue.drop s1.practiceIndex).take BATCH_SIZE
    match gen nextItems with
    | some p =>
        ({ s1 with
            practiceResult := some p
            practiceIndex := s1.practiceIndex + BATCH_SIZE
            isGeneratingNext := false }, some nextItems)
    | none => ({ s1 with isGeneratingNext := false }, some nextItems)

/-- isNextAvailable (src/App.tsx line 472). -/
def isNextAvailable (s : AppState) : Bool :=
  decide (s.practiceQueue.length > 0)
    && decide (s.practiceIndex < s.practiceQueue.length)

/-! ## Flashcard cursors (src/components/AnalysisView.tsx) -/

/-- handleFlashcardNext (AnalysisView.tsx lines 220..227), cursor part:
advance only while strictly below the last index of the n-item vocabulary
list. -/
def handleFlashcardNext (n i : Nat) : Nat :=
  if i < n - 1 then i + 1 else i

/-- handleFlashcardPrev (AnalysisView.tsx lines 229..236), cursor part:
step back only while strictly above 0. -/
def handleFlashcardPrev (i : Nat) : Nat :=
  if i > 0 then i - 1 else i

/-- handlePrevCard (AnalysisView.tsx lines 270..276): per-category cursor,
computed as ((i - 1 + total) % total) in JavaScript number arithmetic. -/
def handlePrevCard (i total : Nat) : Int :=
  ((i : Int) - 1 + (total : Int)) % (total : Int)

/-- handleNextCard (AnalysisView.tsx lines 278..284): per-category cursor,
computed as ((i + 1) % total). -/
def handleNextCard (i total : Nat) : Int :=
  ((i : Int) + 1) % (total : Int)

/-! ## Remote store facade (src/services/dataService.ts) -/

/-- The saved_analyses table: one (user_id, row) pair per stored analysis.
A row stores the same fields as a SavedAnalysis. -/
abbrev RemoteStore := List (String × SavedAnalysis)

/-- The ids of the rows a given user owns, in store order. -/
def remoteUserIds (store : RemoteStore) (userId : String) : List String :=
  (store.filter fun row => row.1 == userId).map fun row => row.2.id

/-- dataService.fetchAnalyses (dataService.ts lines 83..98): select the
rows of the user, ordered by date descending. -/
def fetchAnalyses (store : RemoteStore) (userId : String) :
    List SavedAnalysis :=
  ((store.filter fun row => row.1 == userId).map fun row => row.2).mergeSort
    fun a b => decide (b.date ≤ a.date)

/-- dataService.syncAnalyses (dataService.ts lines 195..227): no-op on an
empty input; otherwise insert exactly the analyses whose id is not already
among the ids the user owns remotely.  The bulk insert omits the notes
column, so an inserted row reads back with empty notes. -/
def syncAnalyses (store : RemoteStore) (userId : String)
    (analyses : List SavedAnalysis) : RemoteStore :=
  if analyses.isEmpty then store
  else if (analyses.filter fun a =>
      !((remoteUserIds store userId).contains a.id)).isEmpty then store
  else
    store ++ (analyses.filter fun a =>
      !((remoteUserIds store userId).contains a.id)).map
        fun a => (userId, { a with notes := [] })

/-! ## Login-time reconciliation (src/App.tsx lines 86..128) -/

/-- The two localStorage entries, already parsed (loadLocalData catches
parse failures, so the UI only ever sees list-shaped content). -/
structure LocalCache where
  analysisHistory : List SavedAnalysis
  analysisFolders : List AnalysisFolder
deriving DecidableEq, Repr, Inhabited

/-- Outcomes of the seven awaited network steps of loadCloudData, in
program order; an `Except.error` models a rejected promise. -/
structure CloudEnv where
  recordVisitRes : Except String Unit
  fetchAnalysesPre : Except String (List SavedAnalysis)
  fetchFoldersPre : Except String (List AnalysisFolder)
  syncAnalysesRes : Except String Unit
  syncFoldersRes : Except String Unit
  fetchAnalysesPost : Except String (List SavedAnalysis)
  fetchFoldersPost : Except String (List AnalysisFolder)
deriving Repr, Inhabited

/-- The try block of loadCloudData (src/App.tsx lines 88..120): record the
visit, prefetch cloud data, upload local-only data (each sync step runs
only when the corresponding local list is nonempty), refetch the merged
view, then overwrite the cache with it.  Returns the new cache plus the
collections presented to the UI. -/
def loadCloudDataTry (env : CloudEnv) (cache : LocalCache) :
    Except String (LocalCache × List SavedAnalysis × List AnalysisFolder) := do
  let _ ← env.recordVisitRes
  let _ ← env.fetchAnalysesPre
  let _ ← env.fetchFoldersPre
  let localAnalyses := cache.analysisHistory
  let localFolders := cache.analysisFolders
  let _ ← if localAnalyses.length > 0 then env.syncAnalysesRes else .ok ()
  let _ ← if localFolders.length > 0 then env.syncFoldersRes else .ok ()
  let mergedAnalyses ← env.fetchAnalysesPost
  let mergedFolders ← env.fetchFoldersPost
  pure (⟨mergedAnalyses, mergedFolders⟩, mergedAnalyses, mergedFolders)

/-- loadCloudData (src/App.tsx lines 86..128): on any failure inside the
try block the catch logs and falls back to loadLocalData, presenting the
unmodified local cache; the function itself never fails. -/
def loadCloudData (env : CloudEnv) (cache : LocalCache) :
    LocalCache × List SavedAnalysis × List AnalysisFolder :=
  match loadCloudDataTry env cache with
  | .ok r => r
  | .error _ => (cache, cache.analysisHistory, cache.analysisFolders)

/-! ## Concrete fixtures used by witnesses and counterexamples -/

/-- An empty analysis payload used in fixtures. -/
def emptyResult : AnalysisResult := { summary := "s", tone := "t", vocabulary := [] }

/-- A session state with every practice-related field away from its
initial value, used to exercise handleNewAnalysis. -/
def c9State : AppState :=
  { initialAppState with
      status := .complete
      analysisResult := some emptyResult
      practiceResult := some { scenario := "sc", sentences := [] }
      error := some "Failed to generate practice. Please try again."
      practiceQueue := [default]
      practiceIndex := 7
      topicInput := "a topic" }

/-- C9: the explicit new-analysis action resets the analysis result, input
text, file name, current analysis id, mode and status to their initial
values and leaves every other session field (error, practice result,
practice queue, batch cursor, topic input, source type, collections)
unchanged. -/
theorem handleNewAnalysis_resets (s : AppState) :
    (handleNewAnalysis s).analysisResult = initialAppState.analysisResult
  ∧ (handleNewAnalysis s).inputText = initialAppState.inputText
  ∧ (handleNewAnalysis s).fileName = initialAppState.fileName
  ∧ (handleNewAnalysis s).currentAnalysisId = initialAppState.currentAnalysisId
  ∧ (handleNewAnalysis s).mode = initialAppState.mode
  ∧ (handleNewAnalysis s).status = initialAppState.status
  ∧ (handleNewAnalysis s).error = s.error
  ∧ (handleNewAnalysis s).practiceResult = s.practiceResult
  ∧ (handleNewAnalysis s).practiceQueue = s.practiceQueue
  ∧ (handleNewAnalysis s).practiceIndex = s.practiceIndex
  ∧ (handleNewAnalysis s).topicInput = s.topicInput
  ∧ (handleNewAnalysis s).sourceType = s.sourceType
  ∧ (handleNewAnalysis s).isGeneratingNext = s.isGeneratingNext
  ∧ (handleNewAnalysis s).savedAnalyses = s.savedAnalyses
  ∧ (handleNewAnalysis s).analysisFolders = s.analysisFolders :=
  ⟨rfl, rfl, rfl, rfl, rfl, rfl, rfl, rfl, rfl, rfl, rfl, rfl, rfl, rfl, rfl⟩

/-- C9 counterexample: from a reachable state with a non-initial error
message, practice result, practice queue and batch cursor, the
new-analysis action leaves all four at their old, non-initial values, so
it does not reset all session fields to their initial values. -/
theorem handleNewAnalysis_not_full_reset :
    (handleNewAnalysis c9State).practiceResult = c9State.practiceResult
  ∧ (handleNewAnalysis c9State).practiceResult ≠ initialAppState.practiceResult
  ∧ (handleNewAnalysis c9State).error ≠ initialAppState.error
  ∧ (handleNewAnalysis c9State).practiceQueue ≠ initialAppState.practiceQueue
  ∧ (handleNewAnalysis c9State).practiceIndex ≠ initialAppState.practiceIndex := by
  refine ⟨rfl, ?_, ?_, ?_, ?_⟩ <;> decide

/-- C6: deleting folder `fid` leaves no folder with that id, keeps every
other folder, keeps every analysis (same count), reparents each member
analysis to folderId = none with all other fields unchanged, and leaves
every non-member analysis entirely unchanged. -/
theorem deleteFolder_spec (fid : String) (folders : List AnalysisFolder)
    (analyses : List SavedAnalysis) :
    (∀ f ∈ (deleteFolderLocal fid folders analyses).1, f.id ≠ fid)
  ∧ (∀ f ∈ folders, f.id ≠ fid → f ∈ (deleteFolderLocal fid folders analyses).1)
  ∧ (deleteFolderLocal fid folders analyses).2.length = analyses.length
  ∧ (∀ a ∈ analyses, a.folderId = some fid →
        { a with folderId := none } ∈ (deleteFolderLocal fid folders analyses).2)
  ∧ (∀ a ∈ analyses, a.folderId ≠ some fid →
        a ∈ (deleteFolderLocal fid folders analyses).2) := by
  refine ⟨?_, ?_, ?_, ?_, ?_⟩
  · intro f hf
    simp only [deleteFolderLocal, List.mem_filter, bne_iff_ne, ne_eq] at hf
    exact hf.2
  · intro f hf hne
    simp only [deleteFolderLocal, List.mem_filter, bne_iff_ne, ne_eq]
    exact ⟨hf, hne⟩
  · simp [deleteFolderLocal]
  · intro a ha hfid
    simp only [deleteFolderLocal]
    have : (if a.folderId == some fid then { a with folderId := none } else a)
        = { a with folderId := none } := by simp [hfid]
    exact this ▸ List.mem_map_of_mem _ ha
  · intro a ha hfid
    simp only [deleteFolderLocal]
    have : (if a.folderId == some fid then { a with folderId := none } else a) = a := by
      have : (a.folderId == some fid) = false := by
        simpa [beq_iff_eq] using hfid
      simp [this]
    exact this ▸ List.mem_map_of_mem _ ha

/-- An analysis inside the deleted folder, for the C6 witness. -/
def c6Member : SavedAnalysis :=
  { id := "a1", date := 3, sourceType := .news, inputText := "t1",
    analysisResult := emptyResult, folderId := some "f1" }

/-- An uncategorized analysis, for the C6 witness. -/
def c6Other : SavedAnalysis :=
  { id := "a2", date := 4, sourceType := .book, inputText := "t2",
    analysisResult := emptyResult, folderId := none }

/-- C6 witness: on a concrete folder with one member and one bystander,
the member reappears uncategorized and the bystander is untouched. -/
theorem deleteFolder_spec_witness :
    ({ c6Member with folderId := none }
        ∈ (deleteFolderLocal "f1" [{ id := "f1", name := "n", createdAt := 0 }]
            [c6Member, c6Other]).2)
  ∧ (c6Other ∈ (deleteFolderLocal "f1" [{ id := "f1", name := "n", createdAt := 0 }]
        [c6Member, c6Other]).2) :=
  ⟨(deleteFolder_spec "f1" [{ id := "f1", name := "n", createdAt := 0 }]
      [c6Member, c6Other]).2.2.2.1 c6Member (by simp) rfl,
   (deleteFolder_spec "f1" [{ id := "f1", name := "n", createdAt := 0 }]
      [c6Member, c6Other]).2.2.2.2 c6Other (by simp) (by decide)⟩

/-- C7: over an n-item vocabulary list (n ≥ 1) the session-wide flashcard
cursor is clamped to [0, n-1]: next and prev keep the index in range, prev
at 0 stays 0, next at n-1 stays n-1.  The per-category cursor wraps modulo
the category size k ≥ 1: next at the last index k-1 returns to 0 and prev
at 0 moves to k-1. -/
theorem flashcard_cursor_spec (n k i : Nat) (hn : 1 ≤ n) (hk : 1 ≤ k)
    (hi : i < n) :
    handleFlashcardNext n i < n
  ∧ handleFlashcardPrev i < n
  ∧ handleFlashcardPrev 0 = 0
  ∧ handleFlashcardNext n (n - 1) = n - 1
  ∧ handleNextCard (k - 1) k = 0
  ∧ handlePrevCard 0 k = (k : Int) - 1 := by
  refine ⟨?_, ?_, rfl, ?_, ?_, ?_⟩
  · unfold handleFlashcardNext
    split <;> omega
  · unfold handleFlashcardPrev
    split <;> omega
  · unfold handleFlashcardNext
    split <;> omega
  · unfold handleNextCard
    have hcast : ((k - 1 : Nat) : Int) + 1 = (k : Int) := by omega
    rw [hcast, Int.emod_self]
  · unfold handlePrevCard
    have h0 : ((0 : Nat) : Int) - 1 + (k : Int) = (k : Int) - 1 := by push_cast; ring
    rw [h0]
    exact Int.emod_eq_of_lt (by omega) (by omega)

/-- C7 witness: the clamp and wrap facts at n = k = 3, i = 0. -/
theorem flashcard_cursor_spec_witness :
    handleFlashcardNext 3 0 < 3
  ∧ handleFlashcardPrev 0 < 3
  ∧ handleFlashcardPrev 0 = 0
  ∧ handleFlashcardNext 3 (3 - 1) = 3 - 1
  ∧ handleNextCard (3 - 1) 3 = 0
  ∧ handlePrevCard 0 3 = (3 : Int) - 1 :=
  flashcard_cursor_spec 3 3 0 (by decide) (by decide) (by decide)

/-- C2: whenever any network step of the login-time merge fails, the whole
reconciliation degrades to the fallback: the local cache is returned
unmodified and the pre-merge local collections are what the UI is given;
loadCloudData itself is total, so no failure reaches the caller. -/
theorem loadCloudData_failure_fallback (env : CloudEnv) (cache : LocalCache)
    (e : String) (h : loadCloudDataTry env cache = .error e) :
    loadCloudData env cache = (cache, cache.analysisHistory, cache.analysisFolders) := by
  simp [loadCloudData, h]

/-- A cloud environment whose very first network step rejects. -/
def c2FailingEnv : CloudEnv :=
  { recordVisitRes := .error "network down"
    fetchAnalysesPre := .ok []
    fetchFoldersPre := .ok []
    syncAnalysesRes := .ok ()
    syncFoldersRes := .ok ()
    fetchAnalysesPost := .ok []
    fetchFoldersPost := .ok [] }

/-- A nonempty local cache for the C2 witness. -/
def c2Cache : LocalCache :=
  { analysisHistory := [c6Member], analysisFolders := [{ id := "f1", name := "n", createdAt := 0 }] }

/-- C2 witness: with the first step rejecting, the concrete run presents
the pre-merge cache unmodified. -/
theorem loadCloudData_failure_fallback_witness :
    loadCloudData c2FailingEnv c2Cache
      = (c2Cache, c2Cache.analysisHistory, c2Cache.analysisFolders) :=
  loadCloudData_failure_fallback c2FailingEnv c2Cache "network down" rfl

/-- C10: starting practice generation with an empty explicit selection
while there is no current AnalysisResult issues no generation request,
returns the status to idle, and leaves the practice queue, the batch
cursor and the previously displayed practice result unchanged.  (In the
embedded types the vocabulary field of an AnalysisResult is always
present, and in the source an empty vocabulary array is truthy, so the
guard fails exactly when analysisResult is null.) -/
theorem generatePractice_no_vocab_idle
    (gen : List VocabularyItem → Option GeneratedPractice) (s : AppState)
    (h : s.analysisResult = none) :
    (handleGeneratePractice gen [] s).2 = none
  ∧ (handleGeneratePractice gen [] s).1.status = .idle
  ∧ (handleGeneratePractice gen [] s).1.practiceQueue = s.practiceQueue
  ∧ (handleGeneratePractice gen [] s).1.practiceIndex = s.practiceIndex
  ∧ (handleGeneratePractice gen [] s).1.practiceResult = s.practiceResult := by
  simp [handleGeneratePractice, h]

/-- C10 witness: a concrete resultless state with a pending practice
payload from an earlier run keeps it, and the status lands on idle. -/
theorem generatePractice_no_vocab_idle_witness :
    (handleGeneratePractice (fun _ => none) []
        { initialAppState with practiceResult := some { scenario := "old", sentences := [] } }).2 = none
  ∧ (handleGeneratePractice (fun _ => none) []
        { initialAppState with practiceResult := some { scenario := "old", sentences := [] } }).1.status = .idle
  ∧ (handleGeneratePractice (fun _ => none) []
        { initialAppState with practiceResult := some { scenario := "old", sentences := [] } }).1.practiceQueue
      = ({ initialAppState with practiceResult := some { scenario := "old", sentences := [] } } : AppState).practiceQueue
  ∧ (handleGeneratePractice (fun _ => none) []
        { initialAppState with practiceResult := some { scenario := "old", sentences := [] } }).1.practiceIndex
      = ({ initialAppState with practiceResult := some { scenario := "old", sentences := [] } } : AppState).practiceIndex
  ∧ (handleGeneratePractice (fun _ => none) []
        { initialAppState with practiceResult := some { scenario := "old", sentences := [] } }).1.practiceResult
      = ({ initialAppState with practiceResult := some { scenario := "old", sentences := [] } } : AppState).practiceResult :=
  generatePractice_no_vocab_idle (fun _ => none)
    { initialAppState with practiceResult := some { scenario := "old", sentences := [] } } rfl

/-- C4: nextBatch is a no-op exactly when the cursor has reached the queue
length (and isNextAvailable is true exactly while cursor < length); when
available it requests the slice [cursor, cursor + 5) of the queue,
advances the cursor by 5 and stores the payload if the generation request
succeeds, and leaves the cursor and the displayed practice payload
unchanged if it fails, so the same slice can be retried. -/
theorem nextBatch_spec (gen : List VocabularyItem → Option GeneratedPractice)
    (s : AppState) :
    BATCH_SIZE = 5
  ∧ (isNextAvailable s = true ↔ s.practiceIndex < s.practiceQueue.length)
  ∧ (s.practiceQueue.length ≤ s.practiceIndex →
        handleNextPracticeBatch gen s = (s, none))
  ∧ (s.practiceIndex < s.practiceQueue.length →
        (handleNextPracticeBatch gen s).2
            = some ((s.practiceQueue.drop s.practiceIndex).take 5)
      ∧ (∀ p, gen ((s.practiceQueue.drop s.practiceIndex).take 5) = some p →
            (handleNextPracticeBatch gen s).1.practiceIndex = s.practiceIndex + 5
          ∧ (handleNextPracticeBatch gen s).1.practiceResult = some p
          ∧ (handleNextPracticeBatch gen s).1.practiceQueue = s.practiceQueue)
      ∧ (gen ((s.practiceQueue.drop s.practiceIndex).take 5) = none →
            (handleNextPracticeBatch gen s).1.practiceIndex = s.practiceIndex
          ∧ (handleNextPracticeBatch gen s).1.practiceResult = s.practiceResult
          ∧ (handleNextPracticeBatch gen s).1.practiceQueue = s.practiceQueue)) := by
  refine ⟨rfl, ?_, ?_, ?_⟩
  · unfold isNextAvailable
    constructor
    · intro h
      have := (Bool.and_eq_true _ _).mp h
      exact of_decide_eq_true this.2
    · intro h
      have h0 : 0 < s.practiceQueue.length := Nat.lt_of_le_of_lt (Nat.zero_le _) h
      simp [h, h0]
  · intro h
    unfold handleNextPracticeBatch
    rw [if_pos h]
  · intro h
    have hguard : ¬ s.practiceIndex ≥ s.practiceQueue.length := Nat.not_le.mpr h
    unfold handleNextPracticeBatch
    rw [if_neg hguard]
    refine ⟨?_, ?_, ?_⟩
    · cases hg : gen ((s.practiceQueue.drop s.practiceIndex).take 5) <;>
        simp [BATCH_SIZE, hg]
    · intro p hp
      simp [BATCH_SIZE, hp]
    · intro hp
      simp [BATCH_SIZE, hp]

/-- A one-item queue state for the C4 witness. -/
def c4State : AppState :=
  { initialAppState with practiceQueue := [default], practiceIndex := 0 }

/-- C4 witness: at an exhausted queue the call is a no-op; at a live
one-item queue with an always-succeeding generator the cursor advances by
5 and the payload is stored. -/
theorem nextBatch_spec_witness :
    handleNextPracticeBatch (fun _ => some { scenario := "sc", sentences := [] })
        initialAppState = (initialAppState, none)
  ∧ (handleNextPracticeBatch (fun _ => some { scenario := "sc", sentences := [] })
        c4State).1.practiceIndex = 0 + 5
  ∧ (handleNextPracticeBatch (fun _ => some { scenario := "sc", sentences := [] })
        c4State).1.practiceResult = some { scenario := "sc", sentences := [] } :=
  have h1 := (nextBatch_spec (fun _ => some { scenario := "sc", sentences := [] })
      initialAppState).2.2.1 (Nat.le_refl 0)
  have h2 := ((nextBatch_spec (fun _ => some { scenario := "sc", sentences := [] })
      c4State).2.2.2 (by decide)).2.1 { scenario := "sc", sentences := [] } rfl
  ⟨h1, h2.1, h2.2.1⟩

/-- C1 counterexample fixture: a stored analysis whose fileName is the
empty string. -/
def c1Saved : SavedAnalysis :=
  { id := "id-a", date := 0, sourceType := .news, inputText := "first text",
    analysisResult := emptyResult, fileName := some "", notes := [],
    folderId := none }

/-- C1 counterexample fixture: a save of a non-null result whose fileName
is also the empty string (non-null and equal to the stored one) but whose
input text differs. -/
def c1Ctx : SaveContext :=
  { analysisResult := some emptyResult, fileName := some "",
    inputText := "second text", sourceType := .news, notes := [],
    freshId := "id-b", now := 1 }

/-- C1 counterexample: the current fileName is non-null and an existing
entry carries an equal fileName, yet the save inserts a fresh entry (the
collection grows from 1 to 2) instead of updating the match in place,
because the find predicate tests JavaScript truthiness and the empty
string is falsy. -/
theorem saveAnalysis_empty_fileName_inserts :
    c1Ctx.analysisResult.isSome = true
  ∧ c1Ctx.fileName = some ""
  ∧ c1Saved.fileName = c1Ctx.fileName
  ∧ (saveAnalysis c1Ctx [c1Saved]).length = 2 := by
  refine ⟨rfl, rfl, rfl, ?_⟩
  decide

/-- C1 amended: with the identity test read through JavaScript truthiness
(a fileName counts as present only when non-null and non-empty), every
save of a non-null result either updates the first matching entry in place
— same id, new date, inputText and analysisResult, old notes preserved
when the provided list is empty, collection length unchanged — or, when no
entry matches, inserts a fresh entry with the freshly generated id,
growing the collection by one. -/
theorem saveAnalysis_spec (c : SaveContext) (saved : List SavedAnalysis)
    (r : AnalysisResult) (hr : c.analysisResult = some r) :
    (∀ a : SavedAnalysis,
        matchesSource c.fileName c.inputText a = true ↔
          ((strTruthy c.fileName = true ∧ strTruthy a.fileName = true
              ∧ a.fileName = c.fileName)
         ∨ (strTruthy c.fileName = false ∧ strTruthy a.fileName = false
              ∧ a.inputText = c.inputText)))
  ∧ ((saved.find? (matchesSource c.fileName c.inputText)).isSome ↔
        ∃ a ∈ saved, matchesSource c.fileName c.inputText a = true)
  ∧ (∀ m, saved.find? (matchesSource c.fileName c.inputText) = some m →
        saveAnalysis c saved
            = saved.map (fun a => if a.id == m.id then updatedAnalysis c r m else a)
      ∧ (saveAnalysis c saved).length = saved.length
      ∧ (updatedAnalysis c r m).id = m.id
      ∧ (updatedAnalysis c r m).date = c.now
      ∧ (updatedAnalysis c r m).inputText = c.inputText
      ∧ (updatedAnalysis c r m).analysisResult = r
      ∧ (c.notes = [] → (updatedAnalysis c r m).notes = m.notes))
  ∧ (saved.find? (matchesSource c.fileName c.inputText) = none →
        saveAnalysis c saved = newAnalysis c r :: saved
      ∧ (saveAnalysis c saved).length = saved.length + 1
      ∧ (newAnalysis c r).id = c.freshId) := by
  refine ⟨?_, ?_, ?_, ?_⟩
  · intro a
    cases hf : strTruthy c.fileName <;> cases hfa : strTruthy a.fileName <;>
      simp [matchesSource, hf, hfa]
  · simp [List.find?_isSome]
  · intro m hm
    refine ⟨?_, ?_, rfl, rfl, rfl, rfl, ?_⟩
    · simp [saveAnalysis, hr, hm]
    · simp [saveAnalysis, hr, hm]
    · intro hn
      simp [updatedAnalysis, hn]
  · intro hnone
    refine ⟨?_, ?_, rfl⟩
    · simp [saveAnalysis, hr, hnone]
    · simp [saveAnalysis, hr, hnone]

/-- A save context with a pasted-text source for the C1 witness. -/
def c1InsCtx : SaveContext :=
  { analysisResult := some emptyResult, fileName := none,
    inputText := "brand new text", sourceType := .email, notes := [],
    freshId := "fresh-1", now := 9 }

/-- C1 witness: on an empty collection no entry matches, so the save
inserts one fresh entry carrying the generated id. -/
theorem saveAnalysis_spec_witness :
    saveAnalysis c1InsCtx [] = [newAnalysis c1InsCtx emptyResult]
  ∧ (saveAnalysis c1InsCtx []).length = 0 + 1
  ∧ (newAnalysis c1InsCtx emptyResult).id = c1InsCtx.freshId :=
  have h := (saveAnalysis_spec c1InsCtx [] emptyResult rfl).2.2.2 rfl
  ⟨h.1, h.2.1, h.2.2⟩

/-- One save step preserves distinctness of the stored ids, provided the
freshly generated id is new: an update rewrites an entry in place keeping
its id, an insert conses the fresh id. -/
lemma saveAnalysis_ids_nodup (c : SaveContext) (saved : List SavedAnalysis)
    (h : (analysisIds saved).Nodup) (hf : c.freshId ∉ analysisIds saved) :
    (analysisIds (saveAnalysis c saved)).Nodup := by
  unfold saveAnalysis
  cases hr : c.analysisResult with
  | none => exact h
  | some r =>
    cases hm : saved.find? (matchesSource c.fileName c.inputText) with
    | none =>
      simp only [analysisIds, List.map_cons, newAnalysis] at *
      exact List.Nodup.cons hf h
    | some m =>
      have hids : analysisIds
          (saved.map fun a => if a.id == m.id then updatedAnalysis c r m else a)
          = analysisIds saved := by
        unfold analysisIds
        rw [List.map_map]
        apply List.map_congr_left
        intro a _
        by_cases hid : a.id = m.id
        · simp [Function.comp, hid, updatedAnalysis]
        · simp [Function.comp, hid]
      rw [hids]
      exact h

/-- C5: starting from a collection with pairwise-distinct ids, any
sequence of saves in which every freshly generated id is new at the moment
it is used keeps the stored ids pairwise distinct. -/
theorem saveAll_ids_nodup (cs : List SaveContext) (saved : List SavedAnalysis)
    (h : (analysisIds saved).Nodup) (hf : freshIdsOk cs saved = true) :
    (analysisIds (saveAll cs saved)).Nodup := by
  induction cs generalizing saved with
  | nil => exact h
  | cons c cs ih =>
    rw [freshIdsOk, Bool.and_eq_true] at hf
    have hmem : c.freshId ∉ analysisIds saved := by
      simpa using hf.1
    exact ih (saveAnalysis c saved) (saveAnalysis_ids_nodup c saved h hmem) hf.2

/-- Second save of the C5 witness: same pasted text as the first, so it
updates in place; its fresh id is unused. -/
def c5Update : SaveContext :=
  { analysisResult := some emptyResult, fileName := none,
    inputText := "brand new text", sourceType := .news, notes := [],
    freshId := "fresh-2", now := 10 }

/-- C5 witness: an insert followed by an in-place update keeps the id set
duplicate-free on a concrete run. -/
theorem saveAll_ids_nodup_witness :
    (analysisIds (saveAll [c1InsCtx, c5Update] [])).Nodup :=
  saveAll_ids_nodup [c1InsCtx, c5Update] [] (by simp [analysisIds]) (by decide)

/-- Wrap a total generator as an always-succeeding asynchronous one. -/
def genTotal (g : List VocabularyItem → GeneratedPractice) :
    List VocabularyItem → Option GeneratedPractice :=
  fun items => some (g items)

/-- C3 amended: on a 12-item vocabulary list with no explicit selection,
the initial practice call requests items [0, 5), retains the full list as
the queue and sets the cursor to 5; a first successful nextBatch requests
items [5, 10) and sets the cursor to 10; a second successful nextBatch
requests the partial batch [10, 12) and disables further batching, but
the cursor it leaves is 15 (one full BATCH_SIZE past the previous value),
not the queue length 12. -/
theorem practice_scenario_12 (g : List VocabularyItem → GeneratedPractice)
    (v : List VocabularyItem) (r : AnalysisResult)
    (hv : v.length = 12) (hr : r.vocabulary = v)
    (s1 s2 s3 : AppState) (q1 q2 q3 : Option (List VocabularyItem))
    (h1 : handleGeneratePractice (genTotal g) []
            { initialAppState with analysisResult := some r } = (s1, q1))
    (h2 : handleNextPracticeBatch (genTotal g) s1 = (s2, q2))
    (h3 : handleNextPracticeBatch (genTotal g) s2 = (s3, q3)) :
    q1 = some (v.take 5) ∧ s1.practiceQueue = v ∧ s1.practiceIndex = 5
  ∧ q2 = some ((v.drop 5).take 5) ∧ s2.practiceIndex = 10
  ∧ q3 = some (v.drop 10) ∧ s3.practiceIndex = 15
  ∧ isNextAvailable s3 = false := by
  have e1 : handleGeneratePractice (genTotal g) []
      { initialAppState with analysisResult := some r }
      = ({ initialAppState with
             analysisResult := some r
             status := .complete
             error := none
             practiceQueue := v
             practiceIndex := 5
             practiceResult := some (g (v.take 5)) }, some (v.take 5)) := by
    simp [handleGeneratePractice, runPracticeRequest, genTotal, BATCH_SIZE, hr,
      initialAppState]
  rw [e1] at h1
  obtain ⟨hs1, hq1⟩ := Prod.mk.injEq .. ▸ h1
  have hs1q : s1.practiceQueue = v := by rw [← hs1]
  have hs1i : s1.practiceIndex = 5 := by rw [← hs1]
  have e2 : handleNextPracticeBatch (genTotal g) s1
      = ({ s1 with
             practiceResult := some (g ((v.drop 5).take 5))
             practiceIndex := 10
             isGeneratingNext := false }, some ((v.drop 5).take 5)) := by
    unfold handleNextPracticeBatch
    rw [if_neg (by rw [hs1q, hs1i, hv]; omega)]
    simp [genTotal, BATCH_SIZE, hs1q, hs1i]
  rw [e2] at h2
  obtain ⟨hs2, hq2⟩ := Prod.mk.injEq .. ▸ h2
  have hs2q : s2.practiceQueue = v := by rw [← hs2]; exact hs1q
  have hs2i : s2.practiceIndex = 10 := by rw [← hs2]
  have hdrop : (v.drop 10).take 5 = v.drop 10 := by
    apply List.take_of_length_le
    simp [hv]
  have e3 : handleNextPracticeBatch (genTotal g) s2
      = ({ s2 with
             practiceResult := some (g (v.drop 10))
             practiceIndex := 15
             isGeneratingNext := false }, some (v.drop 10)) := by
    unfold handleNextPracticeBatch
    rw [if_neg (by rw [hs2q, hs2i, hv]; omega)]
    simp [genTotal, BATCH_SIZE, hs2q, hs2i, hdrop]
  rw [e3] at h3
  obtain ⟨hs3, hq3⟩ := Prod.mk.injEq .. ▸ h3
  have hs3q : s3.practiceQueue = v := by rw [← hs3]; exact hs2q
  have hs3i : s3.practiceIndex = 15 := by rw [← hs3]
  refine ⟨hq1.symm, hs1q, hs1i, hq2.symm, hs2i, hq3.symm, hs3i, ?_⟩
  simp [isNextAvailable, hs3q, hs3i, hv]

/-- A concrete 12-item vocabulary list for the C3 run. -/
def c3Vocab : List VocabularyItem :=
  (List.range 12).map fun i =>
    { term := toString i, definition := "d", category := .topicSpecific }

/-- A concrete analysis carrying the 12-item list. -/
def c3Result : AnalysisResult :=
  { summary := "s", tone := "t", vocabulary := c3Vocab }

/-- A concrete total generator for the C3 run. -/
def c3Gen : List VocabularyItem → GeneratedPractice :=
  fun _ => { scenario := "sc", sentences := [] }

/-- The session state after the initial practice call of the C3 run. -/
def c3S1 : AppState :=
  (handleGeneratePractice (genTotal c3Gen) []
    { initialAppState with analysisResult := some c3Result }).1

/-- The session state after the first nextBatch of the C3 run. -/
def c3S2 : AppState := (handleNextPracticeBatch (genTotal c3Gen) c3S1).1

/-- The session state after the second nextBatch of the C3 run. -/
def c3S3 : AppState := (handleNextPracticeBatch (genTotal c3Gen) c3S2).1

/-- C3 witness: the amended scenario instantiated on the concrete 12-item
run: cursors 5, 10, 15, the three requested slices, and no further batch
offered at the end. -/
theorem practice_scenario_12_witness :
    (handleGeneratePractice (genTotal c3Gen) []
        { initialAppState with analysisResult := some c3Result }).2
      = some (c3Vocab.take 5)
  ∧ c3S1.practiceQueue = c3Vocab ∧ c3S1.practiceIndex = 5
  ∧ (handleNextPracticeBatch (genTotal c3Gen) c3S1).2
      = some ((c3Vocab.drop 5).take 5)
  ∧ c3S2.practiceIndex = 10
  ∧ (handleNextPracticeBatch (genTotal c3Gen) c3S2).2 = some (c3Vocab.drop 10)
  ∧ c3S3.practiceIndex = 15
  ∧ isNextAvailable c3S3 = false :=
  practice_scenario_12 c3Gen c3Vocab c3Result (by decide) rfl
    c3S1 c3S2 c3S3 _ _ _ rfl rfl rfl

/-- C3 counterexample: on the concrete 12-item run the second successful
nextBatch does request the partial batch and disable further batching,
but it leaves the cursor at 15, not at the queue length 12 as the claim
states. -/
theorem practice_scenario_cursor_not_12 :
    (handleNextPracticeBatch (genTotal c3Gen) c3S2).2 = some (c3Vocab.drop 10)
  ∧ c3S3.practiceIndex = 15
  ∧ c3Vocab.length = 12
  ∧ c3S3.practiceIndex ≠ c3Vocab.length := by
  refine ⟨by decide, by decide, by decide, by decide⟩

/-- The ids a user owns after a bulk sync: the old ids followed by the ids
of exactly those uploaded analyses that were not already present. -/
lemma remoteUserIds_syncAnalyses (store : RemoteStore) (uid : String)
    (la : List SavedAnalysis) :
    remoteUserIds (syncAnalyses store uid la) uid
      = remoteUserIds store uid ++
          (la.filter fun a => !((remoteUserIds store uid).contains a.id)).map
            fun a => a.id := by
  unfold syncAnalyses
  by_cases h1 : la.isEmpty
  · have hla : la = [] := List.isEmpty_iff.mp h1
    subst hla
    simp
  · rw [if_neg h1]
    by_cases h2 : (la.filter fun a =>
        !((remoteUserIds store uid).contains a.id)).isEmpty
    · rw [if_pos h2]
      have hnil : (la.filter fun a =>
          !((remoteUserIds store uid).contains a.id)) = [] :=
        List.isEmpty_iff.mp h2
      rw [hnil]
      simp
    · rw [if_neg h2]
      unfold remoteUserIds
      rw [List.filter_append, List.map_append]
      congr 1
      rw [List.filter_map, List.map_map]
      have hpred : ((fun row : String × SavedAnalysis => row.1 == uid) ∘
          fun a : SavedAnalysis => (uid, { a with notes := [] }))
          = fun _ => true := by
        funext a
        simp [Function.comp]
      rw [hpred, List.filter_true]
      rfl

/-- A bulk sync whose every analysis is already present remotely inserts
nothing. -/
lemma syncAnalyses_of_all_mem (store : RemoteStore) (uid : String)
    (la : List SavedAnalysis)
    (h : ∀ a ∈ la, a.id ∈ remoteUserIds store uid) :
    syncAnalyses store uid la = store := by
  unfold syncAnalyses
  by_cases hE : la.isEmpty
  · rw [if_pos hE]
  · rw [if_neg hE]
    have hf : (la.filter fun a =>
        !((remoteUserIds store uid).contains a.id)) = [] := by
      rw [List.filter_eq_nil_iff]
      intro a ha
      simp [h a ha]
    rw [if_pos (by rw [hf]; rfl)]

/-- C8: when the ids a user already owns remotely are pairwise distinct
and the uploaded local set has pairwise-distinct ids, a bulk sync inserts
only the analyses whose id is not yet present, so a subsequent fetch
returns a collection with no duplicate ids; and running the same sync a
second time with the same local set inserts nothing at all. -/
theorem syncAnalyses_fetch_nodup (store : RemoteStore) (uid : String)
    (la : List SavedAnalysis)
    (h1 : (remoteUserIds store uid).Nodup)
    (h2 : (la.map fun a => a.id).Nodup) :
    ((fetchAnalyses (syncAnalyses store uid la) uid).map fun a => a.id).Nodup
  ∧ syncAnalyses (syncAnalyses store uid la) uid la
      = syncAnalyses store uid la := by
  have hchar := remoteUserIds_syncAnalyses store uid la
  constructor
  · have hperm : ((fetchAnalyses (syncAnalyses store uid la) uid).map
        fun a => a.id).Perm (remoteUserIds (syncAnalyses store uid la) uid) := by
      unfold fetchAnalyses remoteUserIds
      have hp := List.mergeSort_perm
        (((syncAnalyses store uid la).filter fun row => row.1 == uid).map
          fun row => row.2)
        (fun a b => decide (b.date ≤ a.date))
      have hm := hp.map (fun a : SavedAnalysis => a.id)
      rw [List.map_map] at hm
      exact hm
    rw [hperm.nodup_iff, hchar, List.nodup_append]
    refine ⟨h1, ?_, ?_⟩
    · have hsub : ((la.filter fun a =>
          !((remoteUserIds store uid).contains a.id)).map fun a => a.id).Sublist
          (la.map fun a => a.id) :=
        (la.filter_sublist).map _
      exact h2.sublist hsub
    · intro x hx hx2
      obtain ⟨a, ha, rfl⟩ := List.mem_map.mp hx2
      have hpa := (List.mem_filter.mp ha).2
      simp at hpa
      exact hpa hx
  · apply syncAnalyses_of_all_mem
    intro a ha
    rw [hchar]
    by_cases hc : a.id ∈ remoteUserIds store uid
    · exact List.mem_append_left _ hc
    · refine List.mem_append_right _ ?_
      refine List.mem_map_of_mem _ (List.mem_filter.mpr ⟨ha, ?_⟩)
      simpa using hc

/-- A local analysis for the C8 witness. -/
def c8Analysis : SavedAnalysis :=
  { id := "a9", date := 5, sourceType := .news, inputText := "t",
    analysisResult := emptyResult }

/-- C8 witness: syncing one local analysis into an empty remote store and
fetching yields duplicate-free ids, and a second identical sync is a
no-op. -/
theorem syncAnalyses_fetch_nodup_witness :
    ((fetchAnalyses (syncAnalyses [] "u" [c8Analysis]) "u").map
        fun a => a.id).Nodup
  ∧ syncAnalyses (syncAnalyses [] "u" [c8Analysis]) "u" [c8Analysis]
      = syncAnalyses [] "u" [c8Analysis] :=
  syncAnalyses_fetch_nodup [] "u" [c8Analysis] (by simp [remoteUserIds])
    (by simp)
